import Mathlib

/-!
Verification development for the mailtools_vrb repository
(src/mailtools_vrb/__init__.py, class EasySSLSendmail).

The embedding models:
 - Python scalar values occurring in a JSON-loaded credentials mapping
   (PyVal), Python dicts with string keys (Dict),
 - the classmethod make_credentials_dict (pure form, plus a heap form
   make_credentials_dict_heap that makes the deep copy of line 64 and the
   in-place mutations of lines 73-91 explicit, for the frame property),
 - the constructor (fields _credentials and _last_mail_utc_ts),
 - login and send_mail_message, with the underlying smtplib calls
   (super().login, super().send_message) as oracle parameters and the
   observable effects (log warnings, log errors, transmissions, quit)
   as an explicit action trace.
-/

/-- Python scalar values as they occur in a JSON-parsed credentials
mapping. The merge logic only reads and writes scalar entries, so nested
containers are not modeled. A float carries only its textual form: no
claim depends on float arithmetic, only on the isinstance type check. -/
inductive PyVal where
  | vnone
  | vbool (b : Bool)
  | vint (n : Int)
  | vfloat (txt : String)
  | vstr (s : String)
  deriving Repr, DecidableEq

/-- Python isinstance(x, int): true for int and also for bool, which is a
subtype of int in Python; false for None, float and str. -/
def PyVal.isInt : PyVal → Bool
  | PyVal.vint _ => true
  | PyVal.vbool _ => true
  | _ => false

/-- The integer value of a PyVal for which isInt holds (Python bools
compare as 1 and 0). Other cases are never reached by the code paths
that first check isinstance(x, int). -/
def PyVal.intValue : PyVal → Int
  | PyVal.vint n => n
  | PyVal.vbool b => if b then 1 else 0
  | _ => 0

/-- A Python dict with string keys, modeled as an association list in
insertion order; lookup returns the first binding. -/
abbrev Dict := List (String × PyVal)

/-- Python d[key] read / d.get(key): the first binding of key, if any. -/
def Dict.lookupVal : Dict → String → Option PyVal
  | [], _ => Option.none
  | (k, v) :: rest, key => if k = key then some v else Dict.lookupVal rest key

/-- Python key in d. -/
def Dict.containsKey (d : Dict) (key : String) : Bool :=
  (Dict.lookupVal d key).isSome

/-- Python d[key] = v: overwrite the binding in place when the key is
present, else append it (insertion-order semantics). -/
def Dict.assign : Dict → String → PyVal → Dict
  | [], key, v => [(key, v)]
  | (k, w) :: rest, key, v =>
    if k = key then (k, v) :: rest else (k, w) :: Dict.assign rest key v

/-- The conditional assignment pattern of lines 73-84: if x is not None,
credentials[key] = x. -/
def Dict.assignOpt (d : Dict) (key : String) (v : Option PyVal) : Dict :=
  match v with
  | some v => Dict.assign d key v
  | Option.none => d

/-- Removal of a key (used only to state that a non-int minpause behaves
as if the key were not configured at all). -/
def Dict.removeKey : Dict → String → Dict
  | [], _ => []
  | (k, v) :: rest, key =>
    if k = key then Dict.removeKey rest key else (k, v) :: Dict.removeKey rest key

namespace EasySSLSendmail

/-- Line 33: standard server port for SMTP over SSL. -/
def SSMTP_PORT_DEFAULT : Int := 465

/-- Lines 61-84 of make_credentials_dict: start from the contents of the
supplied mapping (the deep copy of line 64; in this pure form copying is
identity) or from an empty dict, then apply each keyword argument that
is not None, overwriting the corresponding key. -/
def apply_overrides (json_mail_info : Option Dict)
    (host : Option String) (port : Option Int)
    (user : Option String) (password : Option String)
    (sender : Option String) (minpause : Option Int) : Dict :=
  let credentials : Dict :=
    match json_mail_info with
    | some d => d
    | Option.none => []
  let credentials := Dict.assignOpt credentials "host" (host.map PyVal.vstr)
  let credentials := Dict.assignOpt credentials "port" (port.map PyVal.vint)
  let credentials := Dict.assignOpt credentials "user" (user.map PyVal.vstr)
  let credentials := Dict.assignOpt credentials "password" (password.map PyVal.vstr)
  let credentials := Dict.assignOpt credentials "sender" (sender.map PyVal.vstr)
  Dict.assignOpt credentials "minpause" (minpause.map PyVal.vint)

/-- Lines 86-88: take user for sender, if user is given but no sender is
provided. -/
def adjust_sender (credentials : Dict) : Dict :=
  if Dict.containsKey credentials "user" && !(Dict.containsKey credentials "sender")
  then Dict.assign credentials "sender"
        ((Dict.lookupVal credentials "user").getD PyVal.vnone)
  else credentials

/-- Lines 89-91: use the default port if not provided. -/
def adjust_port (credentials : Dict) : Dict :=
  if !(Dict.containsKey credentials "port")
  then Dict.assign credentials "port" (PyVal.vint SSMTP_PORT_DEFAULT)
  else credentials

/-- Lines 36-92: EasySSLSendmail.make_credentials_dict. The
json_mail_info source is the mapping case (a supplied dict, or the
parsed contents of a JSON file); None starts from an empty dict. -/
def make_credentials_dict (json_mail_info : Option Dict)
    (host : Option String) (port : Option Int)
    (user : Option String) (password : Option String)
    (sender : Option String) (minpause : Option Int) : Dict :=
  adjust_port (adjust_sender
    (apply_overrides json_mail_info host port user password sender minpause))

end EasySSLSendmail

/-- A heap of Python dict objects; a reference is an index into the
allocation list. Used to state the frame property of the deep copy on
line 64 (the caller's mapping is not mutated by the merge). -/
structure Heap where
  dicts : List Dict
  deriving Repr

/-- Dereference. An invalid reference yields the empty dict; the frame
theorem only quantifies over valid references. -/
def Heap.get (h : Heap) (r : Nat) : Dict :=
  List.getD h.dicts r []

/-- Allocate a fresh dict object holding the given contents; returns the
new heap and the fresh reference. -/
def Heap.alloc (h : Heap) (d : Dict) : Heap × Nat :=
  (Heap.mk (h.dicts ++ [d]), h.dicts.length)

/-- In-place mutation credentials[key] = v on the dict object r. -/
def Heap.assignKey (h : Heap) (r : Nat) (key : String) (v : PyVal) : Heap :=
  Heap.mk (h.dicts.set r (Dict.assign (Heap.get h r) key v))

/-- The conditional in-place assignment of lines 73-84. -/
def Heap.assignKeyOpt (h : Heap) (r : Nat) (key : String) (v : Option PyVal) : Heap :=
  match v with
  | some v => Heap.assignKey h r key v
  | Option.none => h

namespace EasySSLSendmail

/-- Lines 73-84 at heap level: each keyword argument that is not None is
assigned into the credentials dict object r. -/
def overrides_heap (h : Heap) (r : Nat)
    (host : Option String) (port : Option Int)
    (user : Option String) (password : Option String)
    (sender : Option String) (minpause : Option Int) : Heap :=
  let h := Heap.assignKeyOpt h r "host" (host.map PyVal.vstr)
  let h := Heap.assignKeyOpt h r "port" (port.map PyVal.vint)
  let h := Heap.assignKeyOpt h r "user" (user.map PyVal.vstr)
  let h := Heap.assignKeyOpt h r "password" (password.map PyVal.vstr)
  let h := Heap.assignKeyOpt h r "sender" (sender.map PyVal.vstr)
  Heap.assignKeyOpt h r "minpause" (minpause.map PyVal.vint)

/-- Lines 86-88 at heap level: take user for sender when no sender is
present, mutating the credentials dict object r. -/
def post_sender_heap (h : Heap) (r : Nat) : Heap :=
  if Dict.containsKey (Heap.get h r) "user"
      && !(Dict.containsKey (Heap.get h r) "sender")
  then Heap.assignKey h r "sender"
        ((Dict.lookupVal (Heap.get h r) "user").getD PyVal.vnone)
  else h

/-- Lines 89-91 at heap level: use the default port if not provided. -/
def post_port_heap (h : Heap) (r : Nat) : Heap :=
  if !(Dict.containsKey (Heap.get h r) "port")
  then Heap.assignKey h r "port" (PyVal.vint SSMTP_PORT_DEFAULT)
  else h

/-- Lines 86-91 at heap level: the sender-from-user and default-port
post-processing, mutating the credentials dict object r. -/
def post_heap (h : Heap) (r : Nat) : Heap :=
  post_port_heap (post_sender_heap h r) r

/-- make_credentials_dict at heap level: line 64's JSON round-trip
allocates a fresh dict holding a copy of the source's contents (or line
71 allocates an empty dict), and every subsequent assignment of lines
73-91 mutates only that fresh object. Returns the final heap and a
reference to the credentials dict. -/
def make_credentials_dict_heap (h : Heap) (json_mail_info : Option Nat)
    (host : Option String) (port : Option Int)
    (user : Option String) (password : Option String)
    (sender : Option String) (minpause : Option Int) : Heap × Nat :=
  let alloced :=
    match json_mail_info with
    | some src => Heap.alloc h (Heap.get h src)
    | Option.none => Heap.alloc h []
  let h := overrides_heap alloced.1 alloced.2 host port user password sender minpause
  (post_heap h alloced.2, alloced.2)

end EasySSLSendmail

/-- An exception, identified by its type name and message (the code logs
exactly these two on failure, line 224). -/
structure Exc where
  excName : String
  excMsg : String
  deriving Repr, DecidableEq

/-- The per-recipient refusal mapping returned by
smtplib.SMTP.send_message: recipient address to (SMTP code, message).
Empty means every recipient was accepted. -/
abbrev SendResult := List (String × Int × String)

/-- The message object handed to super().send_message: either a
single-part EmailMessage (lines 205-209) or a MIMEMultipart with its
subtype and its attached MIMEText parts in attach order, each a
(subtype, payload) pair (lines 214-219). The From header holds whatever
value the sender resolution produced (it is untyped in the source). -/
inductive PyMessage where
  | emailMessage (subject : String) (fromAddr : PyVal) (toAddr : String) (content : String)
  | mimeMultipart (subtype : String) (subject : String) (fromAddr : PyVal)
      (toAddr : String) (parts : List (String × String))
  deriving Repr, DecidableEq

/-- Observable effects of login and send_mail_message, in program order:
logger.warning calls (structured by site), the handoff of a message to
super().send_message, self.quit, and logger.error. -/
inductive Effect where
  | warnMinpause (minpause : PyVal) (timediff : Int)
  | warnNoSender
  | warnNoUser
  | warnNoPassword
  | transmit (msg : PyMessage)
  | quit
  | logError (e : Exc)
  deriving Repr, DecidableEq

/-- Whether an action is the handoff of a message to the server. -/
def Effect.isTransmit : Effect → Bool
  | Effect.transmit _ => true
  | _ => false

/-- Whether an action is the minpause suppression warning of line 198. -/
def Effect.isThrottleWarning : Effect → Bool
  | Effect.warnMinpause _ _ => true
  | _ => false

/-- The instance state of an EasySSLSendmail object that the modeled
methods read or write: the merged credentials dict and the last-mail
timestamp. -/
structure ClientState where
  credentials : Dict
  last_mail_utc_ts : Int
  deriving Repr, DecidableEq

namespace EasySSLSendmail

/-- Lines 94-122: the constructor merges the credentials and sets
_last_mail_utc_ts to 0. The SSL context and the connection opening do
not touch the modeled state. -/
def init (json_mail_info : Option Dict)
    (host : Option String) (port : Option Int)
    (user : Option String) (password : Option String)
    (sender : Option String) (minpause : Option Int) : ClientState :=
  ClientState.mk
    (make_credentials_dict json_mail_info host port user password sender minpause)
    0

/-- Lines 180-183: the effective minpause is the explicit argument if
given, else the credentials entry if present, else absent. -/
def eff_minpause (credentials : Dict) (minpause : Option Int) : Option PyVal :=
  match minpause with
  | some n => some (PyVal.vint n)
  | Option.none => Dict.lookupVal credentials "minpause"

/-- Lines 184-191: the effective sender is the explicit argument if
given, else the credentials entry if present, else the placeholder
string with a warning. Returns the resolved value and the warnings. -/
def eff_sender (credentials : Dict) (sender : Option String) : PyVal × List Effect :=
  match sender with
  | some s => (PyVal.vstr s, [])
  | Option.none =>
    match Dict.lookupVal credentials "sender" with
    | some v => (v, [])
    | Option.none => (PyVal.vstr "(unknown sender)", [Effect.warnNoSender])

/-- Lines 202-219: the message object built for transmission. mail_html
is None or a str (its annotated type), so the isinstance(mail_html, str)
test of line 203 is the Option case split. -/
def build_message (mail_subject : String) (sender : PyVal)
    (mail_to : String) (mail_text : String) (mail_html : Option String) : PyMessage :=
  match mail_html with
  | Option.none => PyMessage.emailMessage mail_subject sender mail_to mail_text
  | some html =>
    PyMessage.mimeMultipart "alternative" mail_subject sender mail_to
      [("plain", mail_text), ("html", html)]

/-- The throttle test of lines 194-196: an effective minpause exists, is
an int in Python's sense, and the time since the last mail is below it. -/
def throttled (st : ClientState) (now : Int) (minpause : Option Int) : Bool :=
  match eff_minpause st.credentials minpause with
  | some v => PyVal.isInt v && decide (now - st.last_mail_utc_ts < PyVal.intValue v)
  | Option.none => false

/-- Lines 153-225: send_mail_message. now is the integer UTC timestamp
taken on line 195; tr models super().send_message, returning the
refusal mapping or raising an exception. Returns the state after the
call, the trace of observable effects, and the returned dict or the
propagated exception. The source never writes _last_mail_utc_ts here,
so the state passes through unchanged on every path. -/
def send_mail_message (st : ClientState) (now : Int)
    (mail_subject : String) (mail_to : String) (mail_text : String)
    (mail_html : Option String) (sender : Option String) (minpause : Option Int)
    (tr : PyMessage → Except Exc SendResult) :
    ClientState × List Effect × Except Exc SendResult :=
  let sres := eff_sender st.credentials sender
  let go : ClientState × List Effect × Except Exc SendResult :=
    let msg := build_message mail_subject sres.1 mail_to mail_text mail_html
    match tr msg with
    | Except.ok d => (st, sres.2 ++ [Effect.transmit msg], Except.ok d)
    | Except.error e =>
      (st, sres.2 ++ [Effect.transmit msg, Effect.quit, Effect.logError e],
       Except.error e)
  match eff_minpause st.credentials minpause with
  | some v =>
    if PyVal.isInt v then
      if now - st.last_mail_utc_ts < PyVal.intValue v then
        (st, sres.2 ++ [Effect.warnMinpause v (now - st.last_mail_utc_ts)],
         Except.ok [])
      else go
    else go
  | Option.none => go

/-- Lines 124-151: login. auth models super().login; its status tuple
(or raised exception) is returned unchanged. Returns the warnings and
the delegated result. -/
def login (credentials : Dict) (user : Option String) (password : Option String)
    (auth : PyVal → PyVal → Except Exc (Int × String)) :
    List Effect × Except Exc (Int × String) :=
  let ures : PyVal × List Effect :=
    match user with
    | some s => (PyVal.vstr s, [])
    | Option.none =>
      match Dict.lookupVal credentials "user" with
      | some v => (v, [])
      | Option.none => (PyVal.vstr "", [Effect.warnNoUser])
  let pres : PyVal × List Effect :=
    match password with
    | some s => (PyVal.vstr s, [])
    | Option.none =>
      match Dict.lookupVal credentials "password" with
      | some v => (v, [])
      | Option.none => (PyVal.vstr "", [Effect.warnNoPassword])
  (ures.2 ++ pres.2, auth ures.1 pres.1)

end EasySSLSendmail

/-- A transport oracle on which every recipient is accepted. -/
def trOk : PyMessage → Except Exc SendResult := fun _ => Except.ok []

/-- A concrete transmission failure. -/
def excConn : Exc := Exc.mk "SMTPServerDisconnected" "Connection unexpectedly closed"

/-- A transport oracle on which every transmission raises excConn. -/
def trFail : PyMessage → Except Exc SendResult := fun _ => Except.error excConn

/-- An authentication oracle that always succeeds. -/
def authOk : PyVal → PyVal → Except Exc (Int × String) :=
  fun _ _ => Except.ok (235, "2.7.0 Authentication successful")

/-- A concrete client whose effective minpause is the integer 60. -/
def throttleClient : ClientState :=
  EasySSLSendmail.init Option.none (some "smtp.example.org") Option.none
    (some "a@x.com") (some "pw") Option.none (some 60)

/-- A concrete client whose credentials carry a JSON-parsed float as
minpause (JSON 60.0 parses to a Python float, not an int). -/
def floatClient : ClientState :=
  EasySSLSendmail.init
    (some [("host", PyVal.vstr "smtp.example.org"),
           ("user", PyVal.vstr "a@x.com"),
           ("minpause", PyVal.vfloat "60.0")])
    Option.none Option.none Option.none Option.none Option.none Option.none

/-- A concrete heap holding one caller-owned credentials mapping. -/
def sourceHeap : Heap :=
  Heap.mk [[("user", PyVal.vstr "a@x.com"), ("minpause", PyVal.vint 9)]]

/-- A source mapping that supplies all six keys, so every override in the
C5 witness really replaces a file-sourced value. -/
def srcAll : Option Dict := some
  [("host", PyVal.vstr "h1"), ("port", PyVal.vint 25), ("user", PyVal.vstr "u1"),
   ("password", PyVal.vstr "p1"), ("sender", PyVal.vstr "s1"), ("minpause", PyVal.vint 5)]


/-! ## Helper lemmas on Dict, Heap and the resolution helpers -/

theorem Dict.lookupVal_assign_self (d : Dict) (k : String) (v : PyVal) :
    Dict.lookupVal (Dict.assign d k v) k = some v := by
  induction d with
  | nil => simp [Dict.assign, Dict.lookupVal]
  | cons p rest ih =>
    obtain ⟨k1, v1⟩ := p
    by_cases h : k1 = k
    · simp [Dict.assign, h, Dict.lookupVal]
    · simp [Dict.assign, h, Dict.lookupVal, ih]

theorem Dict.lookupVal_assign_ne (d : Dict) (k key : String) (v : PyVal)
    (h : k ≠ key) :
    Dict.lookupVal (Dict.assign d k v) key = Dict.lookupVal d key := by
  induction d with
  | nil => simp [Dict.assign, Dict.lookupVal, h]
  | cons p rest ih =>
    obtain ⟨k1, v1⟩ := p
    by_cases h1 : k1 = k
    · subst h1
      simp [Dict.assign, Dict.lookupVal, h]
    · simp [Dict.assign, h1, Dict.lookupVal, ih]

theorem Dict.lookupVal_assignOpt_ne (d : Dict) (k key : String) (v : Option PyVal)
    (h : k ≠ key) :
    Dict.lookupVal (Dict.assignOpt d k v) key = Dict.lookupVal d key := by
  cases v with
  | none => rfl
  | some v => exact Dict.lookupVal_assign_ne d k key v h

theorem Dict.lookupVal_assignOpt_some (d : Dict) (k : String) (v : PyVal) :
    Dict.lookupVal (Dict.assignOpt d k (some v)) k = some v :=
  Dict.lookupVal_assign_self d k v

theorem Dict.lookupVal_removeKey_self (d : Dict) (k : String) :
    Dict.lookupVal (Dict.removeKey d k) k = Option.none := by
  induction d with
  | nil => rfl
  | cons p rest ih =>
    obtain ⟨k1, v1⟩ := p
    by_cases h : k1 = k
    · simp [Dict.removeKey, h, ih]
    · simp [Dict.removeKey, h, Dict.lookupVal, ih]

theorem Dict.lookupVal_removeKey_ne (d : Dict) (k key : String) (h : k ≠ key) :
    Dict.lookupVal (Dict.removeKey d k) key = Dict.lookupVal d key := by
  induction d with
  | nil => rfl
  | cons p rest ih =>
    obtain ⟨k1, v1⟩ := p
    by_cases h1 : k1 = k
    · subst h1
      simp [Dict.removeKey, Dict.lookupVal, h, ih]
    · simp [Dict.removeKey, h1, Dict.lookupVal, ih]

theorem Heap.get_alloc_old (h : Heap) (d : Dict) (r : Nat)
    (hr : r < h.dicts.length) :
    Heap.get (Heap.alloc h d).1 r = Heap.get h r := by
  simp [Heap.get, Heap.alloc, List.getD_eq_getElem?_getD, List.getElem?_append_left hr]

theorem Heap.get_assignKey_ne (h : Heap) (r s : Nat) (k : String) (v : PyVal)
    (hne : s ≠ r) :
    Heap.get (Heap.assignKey h r k v) s = Heap.get h s := by
  simp [Heap.get, Heap.assignKey, List.getD_eq_getElem?_getD,
    List.getElem?_set_ne (Ne.symm hne)]

theorem Heap.get_assignKeyOpt_ne (h : Heap) (r s : Nat) (k : String)
    (v : Option PyVal) (hne : s ≠ r) :
    Heap.get (Heap.assignKeyOpt h r k v) s = Heap.get h s := by
  cases v with
  | none => rfl
  | some v => exact Heap.get_assignKey_ne h r s k v hne

namespace EasySSLSendmail

theorem adjust_sender_lookup_ne (d : Dict) (key : String) (h : key ≠ "sender") :
    Dict.lookupVal (adjust_sender d) key = Dict.lookupVal d key := by
  unfold adjust_sender
  split
  · exact Dict.lookupVal_assign_ne d "sender" key _ (Ne.symm h)
  · rfl

theorem adjust_sender_of_containsKey (d : Dict)
    (h : Dict.containsKey d "sender" = true) :
    adjust_sender d = d := by
  simp [adjust_sender, h]

theorem adjust_port_lookup_ne (d : Dict) (key : String) (h : key ≠ "port") :
    Dict.lookupVal (adjust_port d) key = Dict.lookupVal d key := by
  unfold adjust_port
  split
  · exact Dict.lookupVal_assign_ne d "port" key _ (Ne.symm h)
  · rfl

theorem adjust_port_of_containsKey (d : Dict)
    (h : Dict.containsKey d "port" = true) :
    adjust_port d = d := by
  simp [adjust_port, h]

theorem adjust_port_lookup_of_absent (d : Dict)
    (h : Dict.containsKey d "port" = false) :
    Dict.lookupVal (adjust_port d) "port" = some (PyVal.vint 465) := by
  simp [adjust_port, h, Dict.lookupVal_assign_self, SSMTP_PORT_DEFAULT]

theorem apply_overrides_lookup_host (src : Option Dict)
    (host : Option String) (port : Option Int)
    (user password sender : Option String) (minpause : Option Int)
    (x : String) (hx : host = some x) :
    Dict.lookupVal (apply_overrides src host port user password sender minpause)
      "host" = some (PyVal.vstr x) := by
  subst hx
  unfold apply_overrides
  rw [Dict.lookupVal_assignOpt_ne _ _ _ _ (by decide),
    Dict.lookupVal_assignOpt_ne _ _ _ _ (by decide),
    Dict.lookupVal_assignOpt_ne _ _ _ _ (by decide),
    Dict.lookupVal_assignOpt_ne _ _ _ _ (by decide),
    Dict.lookupVal_assignOpt_ne _ _ _ _ (by decide)]
  exact Dict.lookupVal_assignOpt_some _ "host" _

theorem apply_overrides_lookup_port (src : Option Dict)
    (host : Option String) (port : Option Int)
    (user password sender : Option String) (minpause : Option Int)
    (x : Int) (hx : port = some x) :
    Dict.lookupVal (apply_overrides src host port user password sender minpause)
      "port" = some (PyVal.vint x) := by
  subst hx
  unfold apply_overrides
  rw [Dict.lookupVal_assignOpt_ne _ _ _ _ (by decide),
    Dict.lookupVal_assignOpt_ne _ _ _ _ (by decide),
    Dict.lookupVal_assignOpt_ne _ _ _ _ (by decide),
    Dict.lookupVal_assignOpt_ne _ _ _ _ (by decide)]
  exact Dict.lookupVal_assignOpt_some _ "port" _

theorem apply_overrides_lookup_user (src : Option Dict)
    (host : Option String) (port : Option Int)
    (user password sender : Option String) (minpause : Option Int)
    (x : String) (hx : user = some x) :
    Dict.lookupVal (apply_overrides src host port user password sender minpause)
      "user" = some (PyVal.vstr x) := by
  subst hx
  unfold apply_overrides
  rw [Dict.lookupVal_assignOpt_ne _ _ _ _ (by decide),
    Dict.lookupVal_assignOpt_ne _ _ _ _ (by decide),
    Dict.lookupVal_assignOpt_ne _ _ _ _ (by decide)]
  exact Dict.lookupVal_assignOpt_some _ "user" _

theorem apply_overrides_lookup_password (src : Option Dict)
    (host : Option String) (port : Option Int)
    (user password sender : Option String) (minpause : Option Int)
    (x : String) (hx : password = some x) :
    Dict.lookupVal (apply_overrides src host port user password sender minpause)
      "password" = some (PyVal.vstr x) := by
  subst hx
  unfold apply_overrides
  rw [Dict.lookupVal_assignOpt_ne _ _ _ _ (by decide),
    Dict.lookupVal_assignOpt_ne _ _ _ _ (by decide)]
  exact Dict.lookupVal_assignOpt_some _ "password" _

theorem apply_overrides_lookup_sender (src : Option Dict)
    (host : Option String) (port : Option Int)
    (user password sender : Option String) (minpause : Option Int)
    (x : String) (hx : sender = some x) :
    Dict.lookupVal (apply_overrides src host port user password sender minpause)
      "sender" = some (PyVal.vstr x) := by
  subst hx
  unfold apply_overrides
  rw [Dict.lookupVal_assignOpt_ne _ _ _ _ (by decide)]
  exact Dict.lookupVal_assignOpt_some _ "sender" _

theorem apply_overrides_lookup_minpause (src : Option Dict)
    (host : Option String) (port : Option Int)
    (user password sender : Option String) (minpause : Option Int)
    (x : Int) (hx : minpause = some x) :
    Dict.lookupVal (apply_overrides src host port user password sender minpause)
      "minpause" = some (PyVal.vint x) := by
  subst hx
  unfold apply_overrides
  exact Dict.lookupVal_assignOpt_some _ "minpause" _

theorem apply_overrides_lookup_port_of_none (src : Option Dict)
    (host : Option String) (user password sender : Option String)
    (minpause : Option Int) :
    Dict.lookupVal (apply_overrides src host Option.none user password sender minpause)
      "port" = Dict.lookupVal (Option.getD src []) "port" := by
  unfold apply_overrides
  rw [Dict.lookupVal_assignOpt_ne _ _ _ _ (by decide),
    Dict.lookupVal_assignOpt_ne _ _ _ _ (by decide),
    Dict.lookupVal_assignOpt_ne _ _ _ _ (by decide),
    Dict.lookupVal_assignOpt_ne _ _ _ _ (by decide)]
  show Dict.lookupVal (Dict.assignOpt _ "host" _) "port" = _
  rw [Dict.lookupVal_assignOpt_ne _ _ _ _ (by decide)]
  cases src <;> rfl

theorem overrides_heap_get_ne (h : Heap) (r s : Nat)
    (host : Option String) (port : Option Int)
    (user password sender : Option String) (minpause : Option Int)
    (hne : s ≠ r) :
    Heap.get (overrides_heap h r host port user password sender minpause) s =
      Heap.get h s := by
  unfold overrides_heap
  rw [Heap.get_assignKeyOpt_ne _ _ _ _ _ hne, Heap.get_assignKeyOpt_ne _ _ _ _ _ hne,
    Heap.get_assignKeyOpt_ne _ _ _ _ _ hne, Heap.get_assignKeyOpt_ne _ _ _ _ _ hne,
    Heap.get_assignKeyOpt_ne _ _ _ _ _ hne, Heap.get_assignKeyOpt_ne _ _ _ _ _ hne]

theorem post_sender_heap_get_ne (h : Heap) (r s : Nat) (hne : s ≠ r) :
    Heap.get (post_sender_heap h r) s = Heap.get h s := by
  unfold post_sender_heap
  split
  · rw [Heap.get_assignKey_ne _ _ _ _ _ hne]
  · rfl

theorem post_port_heap_get_ne (h : Heap) (r s : Nat) (hne : s ≠ r) :
    Heap.get (post_port_heap h r) s = Heap.get h s := by
  unfold post_port_heap
  split
  · rw [Heap.get_assignKey_ne _ _ _ _ _ hne]
  · rfl

theorem post_heap_get_ne (h : Heap) (r s : Nat) (hne : s ≠ r) :
    Heap.get (post_heap h r) s = Heap.get h s := by
  unfold post_heap
  rw [post_port_heap_get_ne _ _ _ hne, post_sender_heap_get_ne _ _ _ hne]

theorem eff_sender_warnings (c : Dict) (s : Option String) :
    (eff_sender c s).2 = [] ∨ (eff_sender c s).2 = [Effect.warnNoSender] := by
  unfold eff_sender
  cases s with
  | some s => left; rfl
  | none =>
    cases h : Dict.lookupVal c "sender" with
    | none => right; rfl
    | some v => left; rfl

theorem eff_sender_removeKey (c : Dict) (s : Option String) :
    eff_sender (Dict.removeKey c "minpause") s = eff_sender c s := by
  unfold eff_sender
  cases s with
  | some s => rfl
  | none => rw [Dict.lookupVal_removeKey_ne _ _ _ (by decide)]

theorem filter_transmit_eff_sender (c : Dict) (s : Option String) :
    List.filter Effect.isTransmit (eff_sender c s).2 = [] := by
  rcases eff_sender_warnings c s with h | h <;> rw [h] <;> rfl

theorem all_no_throttle_eff_sender (c : Dict) (s : Option String) :
    List.all (eff_sender c s).2 (fun a => !Effect.isThrottleWarning a) = true := by
  rcases eff_sender_warnings c s with h | h <;> rw [h] <;> rfl

end EasySSLSendmail

open EasySSLSendmail

/-! ## Claim theorems -/

/-- C5: every explicit keyword argument among host, port, user,
password, sender and minpause that is not absent overwrites the
corresponding key taken from the file or mapping source: in the merged
credentials that key holds exactly the keyword value, for every source
and every combination of the other arguments. -/
theorem mergeExplicitArgsTakePrecedence (src : Option Dict)
    (host : Option String) (port : Option Int)
    (user password sender : Option String) (minpause : Option Int) :
    (∀ x, host = some x →
      Dict.lookupVal (make_credentials_dict src host port user password sender minpause)
        "host" = some (PyVal.vstr x)) ∧
    (∀ x, port = some x →
      Dict.lookupVal (make_credentials_dict src host port user password sender minpause)
        "port" = some (PyVal.vint x)) ∧
    (∀ x, user = some x →
      Dict.lookupVal (make_credentials_dict src host port user password sender minpause)
        "user" = some (PyVal.vstr x)) ∧
    (∀ x, password = some x →
      Dict.lookupVal (make_credentials_dict src host port user password sender minpause)
        "password" = some (PyVal.vstr x)) ∧
    (∀ x, sender = some x →
      Dict.lookupVal (make_credentials_dict src host port user password sender minpause)
        "sender" = some (PyVal.vstr x)) ∧
    (∀ x, minpause = some x →
      Dict.lookupVal (make_credentials_dict src host port user password sender minpause)
        "minpause" = some (PyVal.vint x)) := by
  refine ⟨?_, ?_, ?_, ?_, ?_, ?_⟩
  · intro x hx
    unfold make_credentials_dict
    rw [adjust_port_lookup_ne _ _ (by decide), adjust_sender_lookup_ne _ _ (by decide)]
    exact apply_overrides_lookup_host src host port user password sender minpause x hx
  · intro x hx
    unfold make_credentials_dict
    have hp := apply_overrides_lookup_port src host port user password sender minpause x hx
    have hc : Dict.containsKey
        (adjust_sender (apply_overrides src host port user password sender minpause))
        "port" = true := by
      simp [Dict.containsKey, adjust_sender_lookup_ne _ "port" (by decide), hp]
    rw [adjust_port_of_containsKey _ hc, adjust_sender_lookup_ne _ _ (by decide)]
    exact hp
  · intro x hx
    unfold make_credentials_dict
    rw [adjust_port_lookup_ne _ _ (by decide), adjust_sender_lookup_ne _ _ (by decide)]
    exact apply_overrides_lookup_user src host port user password sender minpause x hx
  · intro x hx
    unfold make_credentials_dict
    rw [adjust_port_lookup_ne _ _ (by decide), adjust_sender_lookup_ne _ _ (by decide)]
    exact apply_overrides_lookup_password src host port user password sender minpause x hx
  · intro x hx
    unfold make_credentials_dict
    have hs := apply_overrides_lookup_sender src host port user password sender minpause x hx
    have hc : Dict.containsKey
        (apply_overrides src host port user password sender minpause) "sender" = true := by
      simp [Dict.containsKey, hs]
    rw [adjust_port_lookup_ne _ _ (by decide), adjust_sender_of_containsKey _ hc]
    exact hs
  · intro x hx
    unfold make_credentials_dict
    rw [adjust_port_lookup_ne _ _ (by decide), adjust_sender_lookup_ne _ _ (by decide)]
    exact apply_overrides_lookup_minpause src host port user password sender minpause x hx

/-- Witness for C5 at a concrete input: all six keyword arguments
overwrite the corresponding file-sourced values. -/
theorem mergeExplicitArgsWitness :
    Dict.lookupVal (make_credentials_dict srcAll (some "h2") (some 2525) (some "u2")
      (some "p2") (some "s2") (some 120)) "host" = some (PyVal.vstr "h2") ∧
    Dict.lookupVal (make_credentials_dict srcAll (some "h2") (some 2525) (some "u2")
      (some "p2") (some "s2") (some 120)) "port" = some (PyVal.vint 2525) ∧
    Dict.lookupVal (make_credentials_dict srcAll (some "h2") (some 2525) (some "u2")
      (some "p2") (some "s2") (some 120)) "user" = some (PyVal.vstr "u2") ∧
    Dict.lookupVal (make_credentials_dict srcAll (some "h2") (some 2525) (some "u2")
      (some "p2") (some "s2") (some 120)) "password" = some (PyVal.vstr "p2") ∧
    Dict.lookupVal (make_credentials_dict srcAll (some "h2") (some 2525) (some "u2")
      (some "p2") (some "s2") (some 120)) "sender" = some (PyVal.vstr "s2") ∧
    Dict.lookupVal (make_credentials_dict srcAll (some "h2") (some 2525) (some "u2")
      (some "p2") (some "s2") (some 120)) "minpause" = some (PyVal.vint 120) := by
  have h := mergeExplicitArgsTakePrecedence srcAll (some "h2") (some 2525) (some "u2")
    (some "p2") (some "s2") (some 120)
  exact ⟨h.1 "h2" rfl, h.2.1 2525 rfl, h.2.2.1 "u2" rfl, h.2.2.2.1 "p2" rfl,
    h.2.2.2.2.1 "s2" rfl, h.2.2.2.2.2 120 rfl⟩

/-- C6: whenever the working mapping after all overrides contains the
key user but not the key sender, the merged credentials map sender to
the same value as user. -/
theorem mergeSenderDefaultsToUser (src : Option Dict)
    (host : Option String) (port : Option Int)
    (user password sender : Option String) (minpause : Option Int)
    (hu : Dict.containsKey
      (apply_overrides src host port user password sender minpause) "user" = true)
    (hs : Dict.containsKey
      (apply_overrides src host port user password sender minpause) "sender" = false) :
    Dict.lookupVal (make_credentials_dict src host port user password sender minpause)
        "sender" =
      Dict.lookupVal (make_credentials_dict src host port user password sender minpause)
        "user" := by
  unfold make_credentials_dict
  obtain ⟨uv, huv⟩ := Option.isSome_iff_exists.mp (by
    simpa [Dict.containsKey] using hu)
  have hadj : adjust_sender (apply_overrides src host port user password sender minpause) =
      Dict.assign (apply_overrides src host port user password sender minpause) "sender"
        ((Dict.lookupVal (apply_overrides src host port user password sender minpause)
          "user").getD PyVal.vnone) := by
    simp [adjust_sender, hu, hs]
  rw [hadj, adjust_port_lookup_ne _ _ (by decide), adjust_port_lookup_ne _ _ (by decide),
    Dict.lookupVal_assign_self, Dict.lookupVal_assign_ne _ _ _ _ (by decide), huv]
  rfl

/-- Witness for C6 at a concrete input: a source supplying only user
yields sender equal to user. -/
theorem mergeSenderDefaultsWitness :
    Dict.lookupVal (make_credentials_dict (some [("user", PyVal.vstr "a@x.com")])
        Option.none Option.none Option.none Option.none Option.none Option.none)
        "sender" =
      Dict.lookupVal (make_credentials_dict (some [("user", PyVal.vstr "a@x.com")])
        Option.none Option.none Option.none Option.none Option.none Option.none)
        "user" :=
  mergeSenderDefaultsToUser (some [("user", PyVal.vstr "a@x.com")])
    Option.none Option.none Option.none Option.none Option.none Option.none
    (by decide) (by decide)

/-- C7: a merge input lacking a port (no port key in the source, port
argument absent) yields port 465; and the concrete scenario
merge(user mapping, port=None) yields exactly
user, sender defaulted to user, port 465. -/
theorem mergePortDefaultsTo465 :
    (∀ (src : Option Dict) (host : Option String)
       (user password sender : Option String) (minpause : Option Int),
       Dict.lookupVal (Option.getD src []) "port" = Option.none →
       Dict.lookupVal (make_credentials_dict src host Option.none user password sender
         minpause) "port" = some (PyVal.vint 465)) ∧
    make_credentials_dict (some [("user", PyVal.vstr "a@x.com")]) Option.none Option.none
        Option.none Option.none Option.none Option.none =
      [("user", PyVal.vstr "a@x.com"), ("sender", PyVal.vstr "a@x.com"),
       ("port", PyVal.vint 465)] := by
  constructor
  · intro src host user password sender minpause hsrc
    unfold make_credentials_dict
    have hp : Dict.lookupVal
        (apply_overrides src host Option.none user password sender minpause) "port" =
        Option.none := by
      rw [apply_overrides_lookup_port_of_none]
      exact hsrc
    have hc : Dict.containsKey
        (adjust_sender (apply_overrides src host Option.none user password sender minpause))
        "port" = false := by
      simp [Dict.containsKey, adjust_sender_lookup_ne _ "port" (by decide), hp]
    exact adjust_port_lookup_of_absent _ hc
  · decide

/-- Witness for C7's universal part at a concrete input. -/
theorem mergePortDefaultsWitness :
    Dict.lookupVal (make_credentials_dict (some [("host", PyVal.vstr "h")]) Option.none
      Option.none Option.none Option.none Option.none Option.none) "port" =
      some (PyVal.vint 465) :=
  mergePortDefaultsTo465.1 (some [("host", PyVal.vstr "h")]) Option.none Option.none
    Option.none Option.none Option.none (by decide)

/-- C8: the merge never mutates the caller's mapping: running
make_credentials_dict on a valid source reference leaves the source dict
object unchanged, because the deep copy of line 64 receives every
assignment of lines 73-91. -/
theorem mergeDoesNotMutateSource (h : Heap) (src : Nat)
    (host : Option String) (port : Option Int)
    (user password sender : Option String) (minpause : Option Int)
    (hv : src < h.dicts.length) :
    Heap.get (make_credentials_dict_heap h (some src) host port user password sender
      minpause).1 src = Heap.get h src := by
  unfold make_credentials_dict_heap
  dsimp only
  have hne : src ≠ (Heap.alloc h (Heap.get h src)).2 := by
    simp only [Heap.alloc]
    exact Nat.ne_of_lt hv
  rw [post_heap_get_ne _ _ _ hne, overrides_heap_get_ne _ _ _ _ _ _ _ _ _ hne,
    Heap.get_alloc_old _ _ _ hv]

/-- Witness for C8 at a concrete input: after a merge that overrides
host and minpause, the caller's mapping still holds its original
contents. -/
theorem mergeDoesNotMutateSourceWitness :
    Heap.get (make_credentials_dict_heap sourceHeap (some 0) (some "smtp.example.org")
      Option.none Option.none Option.none Option.none (some 60)).1 0 =
      [("user", PyVal.vstr "a@x.com"), ("minpause", PyVal.vint 9)] :=
  (mergeDoesNotMutateSource sourceHeap 0 (some "smtp.example.org") Option.none
    Option.none Option.none Option.none (some 60) (by decide)).trans (by decide)

/-- Helper: a call that does not trip the throttle proceeds straight to
the transmission path of lines 202-225. -/
theorem send_not_throttled (st : ClientState) (now : Int)
    (subj rcpt text : String) (mhtml : Option String) (sender : Option String)
    (mpArg : Option Int) (tr : PyMessage → Except Exc SendResult)
    (hns : throttled st now mpArg = false) :
    send_mail_message st now subj rcpt text mhtml sender mpArg tr =
      match tr (build_message subj (eff_sender st.credentials sender).1 rcpt text mhtml) with
      | Except.ok d =>
        (st, (eff_sender st.credentials sender).2 ++
          [Effect.transmit (build_message subj (eff_sender st.credentials sender).1
            rcpt text mhtml)],
         Except.ok d)
      | Except.error e =>
        (st, (eff_sender st.credentials sender).2 ++
          [Effect.transmit (build_message subj (eff_sender st.credentials sender).1
            rcpt text mhtml),
           Effect.quit, Effect.logError e],
         Except.error e) := by
  unfold send_mail_message
  unfold throttled at hns
  cases hmp : eff_minpause st.credentials mpArg with
  | none => rfl
  | some v =>
    rw [hmp] at hns
    have hns2 : (PyVal.isInt v &&
        decide (now - st.last_mail_utc_ts < PyVal.intValue v)) = false := hns
    by_cases hiv : PyVal.isInt v = true
    · rw [hiv] at hns2
      simp only [Bool.true_and, decide_eq_false_iff_not] at hns2
      simp [hiv, hns2]
    · simp [hiv]

/-- C2: a call whose effective minpause is an int (in Python's
isinstance sense) with now - LastSendTimestamp below it is suppressed:
the state (in particular _last_mail_utc_ts) is unchanged, the effects
are only the sender-resolution warnings plus the minpause warning (no
transmission reaches the server), and the empty mapping is returned. -/
theorem sendSuppressedWithinMinpause (st : ClientState) (now : Int)
    (subj rcpt text : String) (mhtml : Option String) (sender : Option String)
    (mpArg : Option Int) (tr : PyMessage → Except Exc SendResult) (v : PyVal)
    (hmp : eff_minpause st.credentials mpArg = some v)
    (hint : PyVal.isInt v = true)
    (hlt : now - st.last_mail_utc_ts < PyVal.intValue v) :
    send_mail_message st now subj rcpt text mhtml sender mpArg tr =
      (st, (eff_sender st.credentials sender).2 ++
        [Effect.warnMinpause v (now - st.last_mail_utc_ts)],
       Except.ok []) := by
  unfold send_mail_message
  rw [hmp]
  simp [hint, hlt]

/-- Witness for C2 at a concrete input: minpause 60, a send 10 seconds
after the (initial) timestamp is suppressed with only a warning. -/
theorem sendSuppressedWitness :
    send_mail_message throttleClient 10 "subject" "r@x.com" "body" Option.none
        Option.none Option.none trOk =
      (throttleClient, [Effect.warnMinpause (PyVal.vint 60) 10], Except.ok []) := by
  have h := sendSuppressedWithinMinpause throttleClient 10 "subject" "r@x.com" "body"
    Option.none Option.none Option.none trOk (PyVal.vint 60) (by decide) (by decide)
    (by decide)
  exact h.trans rfl

/-- C3: a non-suppressed call hands exactly one message to the server;
with mail_html absent it is the single-part plain-text message with
Subject/From/To from the resolved values and body mail_text, and with
mail_html a string it is the multipart alternative message with the
same headers and exactly two parts, plain text first and HTML second. -/
theorem sendMessageStructure (st : ClientState) (now : Int)
    (subj rcpt text : String) (mhtml : Option String) (sender : Option String)
    (mpArg : Option Int) (tr : PyMessage → Except Exc SendResult)
    (hns : throttled st now mpArg = false) :
    List.filter Effect.isTransmit
        (send_mail_message st now subj rcpt text mhtml sender mpArg tr).2.1 =
      [Effect.transmit
        (build_message subj (eff_sender st.credentials sender).1 rcpt text mhtml)] ∧
    (mhtml = Option.none →
      build_message subj (eff_sender st.credentials sender).1 rcpt text mhtml =
        PyMessage.emailMessage subj (eff_sender st.credentials sender).1 rcpt text) ∧
    (∀ html, mhtml = some html →
      build_message subj (eff_sender st.credentials sender).1 rcpt text mhtml =
        PyMessage.mimeMultipart "alternative" subj (eff_sender st.credentials sender).1
          rcpt [("plain", text), ("html", html)]) := by
  refine ⟨?_, ?_, ?_⟩
  · rw [send_not_throttled st now subj rcpt text mhtml sender mpArg tr hns]
    cases htr : tr (build_message subj (eff_sender st.credentials sender).1 rcpt text mhtml) <;>
      simp [htr, List.filter_append, filter_transmit_eff_sender, Effect.isTransmit]
  · intro h
    subst h
    rfl
  · intro html h
    subst h
    rfl

/-- Witness for C3 at a concrete input: a multipart send transmits the
two-part alternative message, text part first. -/
theorem sendMessageStructureWitness :
    List.filter Effect.isTransmit
        (send_mail_message throttleClient 1000 "subject" "r@x.com" "body"
          (some "<p>hi</p>") Option.none Option.none trOk).2.1 =
      [Effect.transmit (PyMessage.mimeMultipart "alternative" "subject"
        (PyVal.vstr "a@x.com") "r@x.com" [("plain", "body"), ("html", "<p>hi</p>")])] := by
  have h := sendMessageStructure throttleClient 1000 "subject" "r@x.com" "body"
    (some "<p>hi</p>") Option.none Option.none trOk (by decide)
  exact h.1.trans (by decide)

/-- C4: when the transmission raises, the session is terminated (quit),
the error is logged, and the very same exception propagates to the
caller; the trace shows a single transmission attempt, so nothing is
retried. -/
theorem sendClosesSessionOnError (st : ClientState) (now : Int)
    (subj rcpt text : String) (mhtml : Option String) (sender : Option String)
    (mpArg : Option Int) (tr : PyMessage → Except Exc SendResult) (e : Exc)
    (hns : throttled st now mpArg = false)
    (herr : tr (build_message subj (eff_sender st.credentials sender).1 rcpt text mhtml) =
      Except.error e) :
    send_mail_message st now subj rcpt text mhtml sender mpArg tr =
      (st, (eff_sender st.credentials sender).2 ++
        [Effect.transmit
          (build_message subj (eff_sender st.credentials sender).1 rcpt text mhtml),
         Effect.quit, Effect.logError e],
       Except.error e) := by
  rw [send_not_throttled st now subj rcpt text mhtml sender mpArg tr hns, herr]

/-- Witness for C4 at a concrete input: a failing transmission leaves
the trace transmit, quit, logError and propagates excConn. -/
theorem sendClosesSessionWitness :
    send_mail_message throttleClient 1000 "subject" "r@x.com" "body" Option.none
        Option.none Option.none trFail =
      (throttleClient,
       [Effect.transmit (PyMessage.emailMessage "subject" (PyVal.vstr "a@x.com")
          "r@x.com" "body"),
        Effect.quit, Effect.logError excConn],
       Except.error excConn) := by
  have h := sendClosesSessionOnError throttleClient 1000 "subject" "r@x.com" "body"
    Option.none Option.none Option.none trFail excConn (by decide) rfl
  exact h.trans rfl

/-- C1, evaluated on the code at the claim's own scenario: the
timestamp is initialized to 0 but is never updated by a send that
passes the throttle check, so with minpause 60 a first send at t = 1000
leaves the state unchanged and a second send 10 seconds later is still
attempted (its trace is a transmission, not a suppression warning),
contradicting the claimed suppression. -/
theorem sendTimestampNeverUpdated :
    throttleClient.last_mail_utc_ts = 0 ∧
    (send_mail_message throttleClient 1000 "subject" "r@x.com" "body" Option.none
      Option.none Option.none trOk).1 = throttleClient ∧
    (send_mail_message
        (send_mail_message throttleClient 1000 "subject" "r@x.com" "body" Option.none
          Option.none Option.none trOk).1
        1010 "subject" "r@x.com" "body" Option.none Option.none Option.none trOk).2.1 =
      [Effect.transmit (PyMessage.emailMessage "subject" (PyVal.vstr "a@x.com")
        "r@x.com" "body")] := by
  refine ⟨rfl, ?_, ?_⟩ <;> decide

/-- C9: login falls back from omitted arguments to the credentials
entries and from there to the empty string, warns exactly when a value
was absent in both places, and returns the underlying AUTH exchange's
outcome unchanged (a status tuple on success, the propagated exception
on failure). -/
theorem loginFallbackAndDelegation (credentials : Dict)
    (user password : Option String)
    (auth : PyVal → PyVal → Except Exc (Int × String)) :
    (login credentials user password auth).2 =
      auth ((user.map PyVal.vstr).getD
              ((Dict.lookupVal credentials "user").getD (PyVal.vstr "")))
           ((password.map PyVal.vstr).getD
              ((Dict.lookupVal credentials "password").getD (PyVal.vstr ""))) ∧
    (login credentials user password auth).1 =
      (if user = Option.none ∧ Dict.lookupVal credentials "user" = Option.none
       then [Effect.warnNoUser] else []) ++
      (if password = Option.none ∧ Dict.lookupVal credentials "password" = Option.none
       then [Effect.warnNoPassword] else []) := by
  refine ⟨?_, ?_⟩ <;>
    cases user <;> cases password <;>
      cases hu : Dict.lookupVal credentials "user" <;>
        cases hp : Dict.lookupVal credentials "password" <;>
          simp [login, hu, hp]

/-- C10: when the effective minpause comes from the credentials and is
not an int in Python's isinstance sense (for example a JSON-parsed
float), the throttle check is skipped entirely: the call's observable
outcome equals that of the same call with no minpause configured at
all, and no throttle warning is emitted. -/
theorem sendThrottleSkippedOnNonIntMinpause (st : ClientState) (now : Int)
    (subj rcpt text : String) (mhtml : Option String) (sender : Option String)
    (tr : PyMessage → Except Exc SendResult) (v : PyVal)
    (hl : Dict.lookupVal st.credentials "minpause" = some v)
    (hni : PyVal.isInt v = false) :
    (send_mail_message st now subj rcpt text mhtml sender Option.none tr).2 =
      (send_mail_message
        (ClientState.mk (Dict.removeKey st.credentials "minpause") st.last_mail_utc_ts)
        now subj rcpt text mhtml sender Option.none tr).2 ∧
    List.all (send_mail_message st now subj rcpt text mhtml sender Option.none tr).2.1
      (fun a => !Effect.isThrottleWarning a) = true := by
  have hthr1 : throttled st now Option.none = false := by
    simp [throttled, eff_minpause, hl, hni]
  have hthr2 : throttled
      (ClientState.mk (Dict.removeKey st.credentials "minpause") st.last_mail_utc_ts)
      now Option.none = false := by
    simp [throttled, eff_minpause, Dict.lookupVal_removeKey_self]
  constructor
  · rw [send_not_throttled st now subj rcpt text mhtml sender Option.none tr hthr1,
      send_not_throttled _ now subj rcpt text mhtml sender Option.none tr hthr2,
      eff_sender_removeKey]
    cases htr : tr (build_message subj (eff_sender st.credentials sender).1 rcpt text
        mhtml) <;>
      simp [htr]
  · rw [send_not_throttled st now subj rcpt text mhtml sender Option.none tr hthr1]
    rcases eff_sender_warnings st.credentials sender with hw | hw <;>
      cases htr : tr (build_message subj (eff_sender st.credentials sender).1 rcpt text
          mhtml) <;>
        simp [htr, hw, Effect.isThrottleWarning]

/-- Witness for C10 at a concrete input: a JSON-parsed float minpause of
60.0 does not suppress a send 10 seconds after the initial timestamp. -/
theorem sendThrottleSkippedWitness :
    (send_mail_message floatClient 10 "subject" "r@x.com" "body" Option.none Option.none
      Option.none trOk).2 =
      (send_mail_message
        (ClientState.mk (Dict.removeKey floatClient.credentials "minpause")
          floatClient.last_mail_utc_ts)
        10 "subject" "r@x.com" "body" Option.none Option.none Option.none trOk).2 ∧
    List.all (send_mail_message floatClient 10 "subject" "r@x.com" "body" Option.none
      Option.none Option.none trOk).2.1 (fun a => !Effect.isThrottleWarning a) = true :=
  sendThrottleSkippedOnNonIntMinpause floatClient 10 "subject" "r@x.com" "body"
    Option.none Option.none trOk (PyVal.vfloat "60.0") (by decide) (by decide)
